import Mathlib

/-!
# Verification of the Surplus_Map_Case ETL pipeline

Shallow embedding of the pipeline in `src/` (extract.py, transform.py,
load.py, data_validation.py) together with theorems settling the frozen
claims about it.

Modelling conventions:
* Python/JSON scalar values are modelled by `Val` (`null` covers both a JSON
  null and a pandas NaN; `dt` is a datetime value, abstracted to an integer
  tick).  Python booleans are outside the model.
* A missing dictionary key is `Option.none`; a key present with value `None`
  is `some Val.null`.
* Machine floats are modelled by `ℚ`; the numeric code under test only
  compares, adds and divides, so no float-specific behaviour is involved.
* A Python function that can raise inside the per-station `try` block is
  modelled as returning `Option`, with `none` for the exception path.
-/

namespace SurplusMap

/-- Python `str.upper()` restricted to per-character uppercasing
(sufficient for the ASCII vocabulary this pipeline compares against),
written structurally so that proofs can evaluate it. -/
def pyUpper (s : String) : String := ⟨s.data.map Char.toUpper⟩

/-- Scalar cell value: JSON null / pandas NaN, string, number, or datetime
(datetime instants abstracted to an integer tick). -/
inductive Val where
  | null
  | str (s : String)
  | num (q : ℚ)
  | dt (t : ℤ)
deriving DecidableEq, Repr

/-- Upstream connector record (`RawConnector`): the fields read anywhere in
`transform.py` / `extract.py`.  `none` = key absent. -/
structure Connector where
  id : Option Val
  type : Option Val
  status : Option Val
  power : Option Val
  effect : Option Val
  tariffDefinition : Option Val
deriving DecidableEq, Repr

/-- A connector record with every key absent. -/
def Connector.empty : Connector :=
  ⟨none, none, none, none, none, none⟩

/-- A `connectionTypes` / `connectionsTypes` grouping:
type name ↦ list of connectors. -/
abbrev Grouping := List (String × List Connector)

/-- Upstream station record (`RawStation`): the fields read anywhere in
`transform.py` / `extract.py`.  `location` is an association list standing
for the nested dict (Python truthiness of the dict = list nonempty). -/
structure Station where
  id : Option Val
  name : Option Val
  operator : Option Val
  status : Option Val
  address : Option Val
  description : Option Val
  location : Option (List (String × Val))
  connectors : Option (List Connector)
  connectionTypes : Option Grouping
  connectionsTypes : Option Grouping
  totalConnectors : Option Val
  amenities : Option (List String)
deriving DecidableEq, Repr

/-- A station record with every key absent. -/
def Station.empty : Station :=
  ⟨none, none, none, none, none, none, none, none, none, none, none, none⟩

/-- Flattening of a type → connectors grouping, stamping each connector with
its grouping key as `type` (transform.py lines 34-37 / 40-43, and
extract.py lines 58-62). -/
def flattenGrouping (g : Grouping) : List Connector :=
  g.flatMap (fun p => p.2.map (fun c => { c with type := some (Val.str p.1) }))

/-- Connector-list resolution shared by both transformers
(transform.py lines 27-43 and 169-184): an existing *truthy* `connectors`
list wins, else flatten `connectionTypes`, else flatten `connectionsTypes`,
else empty. -/
def connectorsListOf (s : Station) : List Connector :=
  match s.connectors with
  | some (c :: cs) => c :: cs
  | _ =>
    match s.connectionTypes with
    | some g => flattenGrouping g
    | none =>
      match s.connectionsTypes with
      | some g => flattenGrouping g
      | none => []

/-- `totalConnectors` when present and numeric, else the initial 0
(transform.py lines 23, 46-47). -/
def totalConnectorsRaw (s : Station) : ℚ :=
  match s.totalConnectors with
  | some (Val.num q) => q
  | _ => 0

/-- Final `total_connectors` (transform.py line 62, executed inside the
connector loop, hence only when the resolved list is nonempty; Python
`or` replaces a (falsy) zero by the list length). -/
def resolvedTotalConnectors (s : Station) : ℚ :=
  if connectorsListOf s = [] then totalConnectorsRaw s
  else if totalConnectorsRaw s = 0 then ((connectorsListOf s).length : ℚ)
  else totalConnectorsRaw s

/-- `connector.get('status', '').upper()` (transform.py line 58): absent key
defaults to `""`; a present non-string value makes `.upper()` raise
(`none` = exception). -/
def connStatusUpper (c : Connector) : Option String :=
  match c.status with
  | none => some ""
  | some (Val.str s) => some (pyUpper s)
  | some _ => none

/-- `available_connectors` count (transform.py lines 57-60); `none` when some
connector's status is a present non-string (the station is then skipped by
the surrounding `except`). -/
def availableConnectorsOf (s : Station) : Option ℕ :=
  let l := connectorsListOf s
  if l.all (fun c => (connStatusUpper c).isSome) then
    some (l.countP (fun c => connStatusUpper c == some "AVAILABLE"))
  else none

/-- The keys of the `connector_counts` dict (transform.py line 22). -/
def bucketKeys : List String := ["CCS", "CHAdeMO", "Type2", "AC Type 2", "Other"]

/-- The `connector_counts` bucket a connector's `type` hits via the
`connector_type in connector_counts` test (transform.py lines 51-55):
`some t` when the type is the literal string `t` among the dict keys,
`none` when the `Other` fallback branch fires. -/
def typeKey (c : Connector) : Option String :=
  match c.type with
  | some (Val.str t) => if t ∈ bucketKeys then some t else none
  | _ => none

/-- Count of connectors hitting a named bucket. -/
def countBucket (l : List Connector) (t : String) : ℕ :=
  l.countP (fun c => typeKey c == some t)

/-- Final value of `connector_counts['Other']` (literal `'Other'` types plus
every unmatched type). -/
def countOther (l : List Connector) : ℕ :=
  l.countP (fun c => typeKey c == some "Other" || (typeKey c).isNone)

/-- `connector_counts['Type2']` after the fold at transform.py line 65
(`counts['Type2'] += counts['AC Type 2']`). -/
def foldedType2 (l : List Connector) : ℕ :=
  countBucket l "Type2" + countBucket l "AC Type 2"

/-- The station-status synonym table at transform.py lines 77-84. -/
def statusMapping (u : String) : Option String :=
  if u = "AVAILABLE" then some "Available"
  else if u = "OCCUPIED" then some "Occupied"
  else if u = "UNAVAILABLE" then some "OutOfOrder"
  else if u = "OUT_OF_ORDER" then some "OutOfOrder"
  else if u = "PLANNED" then some "Planned"
  else if u = "UNDER_CONSTRUCTION" then some "UnderConstruction"
  else none

/-- Status in the `total_connectors == 0` branch (transform.py lines 74-85):
a truthy string status is mapped through the synonym table (unmapped values
pass through), everything else is left as-is. -/
def statusWhenNoConnectors (s : Station) : Val :=
  match s.status with
  | some (Val.str t) =>
    if t = "" then Val.str "" else Val.str ((statusMapping (pyUpper t)).getD t)
  | some v => v
  | none => Val.null

/-- Status in the `total_connectors != 0` branch (transform.py lines 86-103).
The final `else` (lines 93-103) is reachable only when `total` is nonzero
yet not `> 0`. -/
def statusFromConnectors (avail : ℕ) (total : ℚ) (s : Station) : Val :=
  if avail > 0 then Val.str "Available"
  else if avail = 0 ∧ total > 0 then Val.str "Occupied"
  else
    let original : Val := (s.status).getD (Val.str "")
    match original with
    | Val.str t =>
      if pyUpper t = "UNAVAILABLE" ∨ pyUpper t = "OUT_OF_ORDER" then Val.str "OutOfOrder"
      else if pyUpper t = "PLANNED" then Val.str "Planned"
      else if pyUpper t = "UNDER_CONSTRUCTION" then Val.str "UnderConstruction"
      else Val.str "Occupied"
    | _ => Val.str "Occupied"

/-- One output row of `transform_stations_data` (transform.py lines 106-121). -/
structure StationRecord where
  id : Val
  name : Val
  operator : Val
  status : Val
  address : Val
  description : Val
  latitude : Val
  longitude : Val
  total_connectors : ℚ
  ccs_connectors : ℕ
  chademo_connectors : ℕ
  type2_connectors : ℕ
  other_connectors : ℕ
  amenities : String
deriving DecidableEq, Repr

/-- Latitude/longitude extraction (transform.py lines 68-70): an absent or
falsy (empty) `location` dict yields `None`. -/
def locationCoord (s : Station) (k : String) : Val :=
  match s.location with
  | some (p :: ps) =>
    match (p :: ps).find? (fun q => q.1 == k) with
    | some q => q.2
    | none => Val.null
  | _ => Val.null

/-- Per-station body of `transform_stations_data`'s loop (transform.py
lines 20-123); `none` is the `except`-and-`continue` path, which in this
typed model can only be triggered by a present non-string connector
status. -/
def transformStation (s : Station) : Option StationRecord :=
  match availableConnectorsOf s with
  | none => none
  | some avail =>
    let l := connectorsListOf s
    let total := resolvedTotalConnectors s
    some
      { id := s.id.getD Val.null
        name := s.name.getD Val.null
        operator := s.operator.getD (Val.str "Eviny")
        status :=
          if total = 0 then statusWhenNoConnectors s
          else statusFromConnectors avail total s
        address := s.address.getD Val.null
        description := s.description.getD Val.null
        latitude := locationCoord s "lat"
        longitude := locationCoord s "lng"
        total_connectors := total
        ccs_connectors := countBucket l "CCS"
        chademo_connectors := countBucket l "CHAdeMO"
        type2_connectors := foldedType2 l + countBucket l "AC Type 2"
        other_connectors := countOther l
        amenities :=
          match s.amenities with
          | some (a :: as_) => String.intercalate ", " (a :: as_)
          | _ => "" }

/-- `transform_stations_data` (transform.py lines 10-150): per-station
records, with the DataFrame-level coercion of a null status to
`"Unknown"` (lines 144-147). -/
def transform_stations_data (l : List Station) : List StationRecord :=
  (l.filterMap transformStation).map
    (fun r => if r.status = Val.null then { r with status := Val.str "Unknown" } else r)

/-! ## Utilization transformer (transform.py lines 153-233) -/

/-- The poll instant handed to `transform_utilization_data`: `iso` models
`timestamp.isoformat()` and `hourIso` models
`timestamp.replace(minute=0, second=0, microsecond=0).isoformat()`
(the datetime arithmetic itself is abstracted; only the two derived
strings are consumed downstream). -/
structure PyTimestamp where
  iso : String
  hourIso : String
deriving DecidableEq, Repr

/-- The connector-status synonym table at transform.py lines 194-199. -/
def utilStatusMapping (u : String) : Option String :=
  if u = "AVAILABLE" then some "Available"
  else if u = "OCCUPIED" then some "Occupied"
  else if u = "UNAVAILABLE" then some "OutOfOrder"
  else if u = "OUT_OF_ORDER" then some "OutOfOrder"
  else none

/-- Connector-status normalization (transform.py lines 191-200): a truthy
string is mapped via the synonym table (unmapped values pass through);
anything else is kept unchanged (`None` for an absent key). -/
def normalizeUtilStatus (v : Option Val) : Val :=
  match v with
  | some (Val.str s) =>
    if s = "" then Val.str "" else Val.str ((utilStatusMapping (pyUpper s)).getD s)
  | some v => v
  | none => Val.null

/-- One output row of `transform_utilization_data`
(transform.py lines 206-218). -/
structure UtilRecord where
  timestamp : String
  hourly_timestamp : String
  station_id : Val
  connector_id : Val
  connector_type : Val
  power : Val
  status : Val
  is_occupied : ℕ
  is_available : ℕ
  is_out_of_order : ℕ
  tariff : Val
deriving DecidableEq, Repr

/-- Per-connector body of `transform_utilization_data`'s inner loop
(transform.py lines 186-218). -/
def utilRecordOf (ts : PyTimestamp) (sid : Val) (c : Connector) : UtilRecord :=
  let st := normalizeUtilStatus c.status
  { timestamp := ts.iso
    hourly_timestamp := ts.hourIso
    station_id := sid
    connector_id := c.id.getD Val.null
    connector_type := c.type.getD Val.null
    power :=
      match c.power with
      | some v => v
      | none => c.effect.getD Val.null
    status := st
    is_occupied := if st = Val.str "Occupied" then 1 else 0
    is_available := if st = Val.str "Available" then 1 else 0
    is_out_of_order :=
      if st = Val.str "OutOfOrder" ∨ st = Val.str "UNAVAILABLE" then 1 else 0
    tariff := c.tariffDefinition.getD (Val.str "") }

/-- `transform_utilization_data` (transform.py lines 153-233): one record per
resolved connector per station.  No statement inside the per-station `try`
can raise on this typed model, so no station is skipped. -/
def transform_utilization_data (l : List Station) (ts : PyTimestamp) : List UtilRecord :=
  l.flatMap (fun s => (connectorsListOf s).map (utilRecordOf ts (s.id.getD Val.null)))

/-! ## Hourly aggregator (transform.py lines 236-257) -/

/-- One output row of `aggregate_hourly_utilization`. -/
structure HourlyRecord where
  hourly_timestamp : String
  station_id : Val
  is_available : ℕ
  is_occupied : ℕ
  is_out_of_order : ℕ
  total_connectors : ℕ
  occupancy_rate : ℚ
  availability_rate : ℚ
deriving DecidableEq, Repr

/-- First-occurrence deduplication (the semantics of pandas `unique` /
`set(...)`), written with an explicit `seen` accumulator. -/
def firstDedupAux {β : Type} [DecidableEq β] (seen : List β) : List β → List β
  | [] => []
  | x :: xs =>
    if seen.contains x then firstDedupAux seen xs
    else x :: firstDedupAux (x :: seen) xs

/-- Distinct elements of a list, keeping first occurrences. -/
def firstDedup {β : Type} [DecidableEq β] (l : List β) : List β :=
  firstDedupAux [] l

/-- The distinct groupby keys `(hourly_timestamp, station_id)`; pandas
`groupby` drops rows whose key contains NaN (`dropna=True`), and the order
of groups does not matter for any property below, so first-occurrence
order is used. -/
def hourlyKeysOf (u : List UtilRecord) : List (String × Val) :=
  firstDedup (((u.map (fun r => (r.hourly_timestamp, r.station_id))).filter
    (fun k => !(k.2 == Val.null))))

/-- `aggregate_hourly_utilization` (transform.py lines 236-257): per group,
sum the three flags, count rows with a non-null `connector_id`
(pandas `count` skips NaN), and divide.  Division by a zero count yields
`inf`/`NaN` in pandas; in this ℚ model it yields 0 — no theorem below
relies on the value of a rate at a zero count. -/
def aggregate_hourly_utilization (u : List UtilRecord) : List HourlyRecord :=
  (hourlyKeysOf u).map (fun k =>
    let g := u.filter (fun r => r.hourly_timestamp == k.1 && r.station_id == k.2)
    let avail := (g.map (fun r => r.is_available)).sum
    let occ := (g.map (fun r => r.is_occupied)).sum
    let oof := (g.map (fun r => r.is_out_of_order)).sum
    let total := g.countP (fun r => !(r.connector_id == Val.null))
    { hourly_timestamp := k.1
      station_id := k.2
      is_available := avail
      is_occupied := occ
      is_out_of_order := oof
      total_connectors := total
      occupancy_rate := (occ : ℚ) / (total : ℚ)
      availability_rate := (avail : ℚ) / (total : ℚ) })

/-! ## Persister (load.py lines 11-59)

The merge is generic in the row type and the dedup key, covering the three
table-specific keys of `save_to_csv` (stations → `id`, utilization →
`(timestamp, connector_id)`, hourly → `(hourly_timestamp, station_id)`);
the model assumes the key columns exist, as they do for every table the
pipeline produces. -/

section Persister

variable {α κ : Type} [DecidableEq κ]

/-- `drop_duplicates(subset=key, keep="last")` (load.py lines 30-43): keep
each row that has no later row with the same key, preserving order. -/
def dedupKeepLast (key : α → κ) : List α → List α
  | [] => []
  | x :: xs =>
    if xs.any (fun y => decide (key y = key x)) then dedupKeepLast key xs
    else x :: dedupKeepLast key xs

/-- The append path of `save_to_csv` with an existing file (load.py
lines 22-49): concatenate existing then incoming, drop duplicate keys
keeping the last occurrence. -/
def mergeTables (key : α → κ) (existing incoming : List α) : List α :=
  dedupKeepLast key (existing ++ incoming)

/-- `save_to_csv` on a nonempty rowset with `append=True` (load.py
lines 22-59): with no prior file the incoming rows are written verbatim
(lines 55-57), otherwise the merge runs. -/
def save_table (key : α → κ) (existingFile : Option (List α)) (incoming : List α) :
    List α :=
  match existingFile with
  | none => incoming
  | some e => mergeTables key e incoming

/-- The last row of `l` whose key is `k` (the row that wins a `keep="last"`
tie). -/
def lastWithKey (key : α → κ) (l : List α) (k : κ) : Option α :=
  (l.filter (fun r => decide (key r = k))).getLast?

/-- No two rows of `l` share a dedup key. -/
def nodupKeys (key : α → κ) (l : List α) : Prop :=
  (l.map key).Nodup

end Persister

/-! ## Extractor (extract.py lines 11-88) -/

/-- Per-station normalization in the extractor (extract.py lines 50-67):
rename `connectionsTypes` to `connectionTypes` when only the former is
present (lines 52-53). -/
def renameGrouping (s : Station) : Station :=
  if s.connectionsTypes.isSome ∧ s.connectionTypes.isNone then
    { s with connectionTypes := s.connectionsTypes, connectionsTypes := none }
  else s

/-- Per-station normalization in the extractor (extract.py lines 50-67):
after the rename, a present `connectionTypes` grouping is flattened and
unconditionally assigned to `station["connectors"]` (lines 56-65). -/
def processStation (s : Station) : Station :=
  let s' := renameGrouping s
  match s'.connectionTypes with
  | some g => { s' with connectors := some (flattenGrouping g) }
  | none => s'

/-- Shape of a successfully parsed JSON response (extract.py lines 26-46):
a dict with a `chargingStations` key, a bare list, or anything else
(which returns `None` after the debug dump). -/
inductive ResponseBody where
  | dictWithStations (l : List Station)
  | bareList (l : List Station)
  | other
deriving DecidableEq, Repr

/-- Outcome of one request attempt.  `transportError` is any
`requests.exceptions.RequestException`: timeout, connection error, or the
non-2xx raised by `raise_for_status` (extract.py lines 18-19, 72).
`parseError` is the `ValueError` raised by `response.json()` on a body
that is not JSON (lines 22, 82); network timing (`time.sleep`) is
abstracted away. -/
inductive AttemptOutcome where
  | transportError
  | parseError
  | success (body : ResponseBody)
deriving DecidableEq, Repr

/-- Result of a successful attempt's response handling
(extract.py lines 26-70). -/
def handleResponse (body : ResponseBody) : Option (List Station) :=
  match body with
  | ResponseBody.dictWithStations l => some (l.map processStation)
  | ResponseBody.bareList l => some (l.map processStation)
  | ResponseBody.other => none

/-- The retry loop of `extract_charging_stations` (extract.py lines 16-88),
driven by an oracle giving the outcome of each attempt.  `idx` is the
0-based attempt index; `fuel` is the number of remaining iterations of
`for attempt in range(max_retries + 1)` (never exhausted when started
with `maxRetries + 1`).  Returns the result together with the number of
attempts issued. -/
def extractGo (outcomes : ℕ → AttemptOutcome) (maxRetries : ℕ) :
    ℕ → ℕ → Option (List Station) × ℕ
  | _, 0 => (none, 0)
  | idx, fuel + 1 =>
    match outcomes idx with
    | AttemptOutcome.success body => (handleResponse body, idx + 1)
    | AttemptOutcome.parseError => (none, idx + 1)
    | AttemptOutcome.transportError =>
      if idx < maxRetries then extractGo outcomes maxRetries (idx + 1) fuel
      else (none, idx + 1)

/-- `extract_charging_stations` (extract.py lines 11-88) over an attempt
oracle. -/
def extract_charging_stations (outcomes : ℕ → AttemptOutcome) (maxRetries : ℕ) :
    Option (List Station) × ℕ :=
  extractGo outcomes maxRetries 0 (maxRetries + 1)

/-! ## Validator (data_validation.py)

DataFrames are modelled as a column list plus rows of association lists;
a cell absent from a row is NaN (`Val.null`).  `dtCols` records which
columns have pandas dtype `datetime64`.  Three pandas primitives that the
validator only passes data through are abstracted into an environment:
`to_datetime` on one cell (`none` = the conversion raises), `strftime`,
and `.dt.hour`.  The `stats` dictionaries assembled by the validators are
pure reporting — they never influence `is_valid` or the issue list — and
are not modelled.  Issue messages are modelled as a structured type, one
constructor per `issues.append` site; the source's
`issue.startswith("Missing required columns")` test distinguishes exactly
the one message built with that prefix, modelled by
`Issue.isMissingRequiredCols`. -/

/-- A pandas DataFrame: columns, datetime64-typed columns, rows. -/
structure DF where
  cols : List String
  dtCols : List String
  rows : List (List (String × Val))
deriving DecidableEq, Repr

/-- Cell lookup; a key absent from the row is NaN. -/
def getCell (r : List (String × Val)) (c : String) : Val :=
  match r.find? (fun p => p.1 == c) with
  | some p => p.2
  | none => Val.null

/-- Cell update (used by the modelled `to_datetime` column assignment). -/
def setCell (r : List (String × Val)) (c : String) (v : Val) :
    List (String × Val) :=
  (c, v) :: r.filter (fun p => !(p.1 == c))

/-- The values of one column, in row order. -/
def colVals (d : DF) (c : String) : List Val :=
  d.rows.map (fun r => getCell r c)

/-- Abstracted pandas primitives used by the validator. -/
structure ValidatorEnv where
  toDT : Val → Option Val
  fmt : Val → String
  hourOf : Val → ℕ

/-- `pd.to_datetime` on a whole column: succeeds iff every cell converts,
and then rewrites the column and marks its dtype datetime64. -/
def convertCol (env : ValidatorEnv) (d : DF) (c : String) : Option DF :=
  let conv := d.rows.map (fun r => (env.toDT (getCell r c)).map (fun v => setCell r c v))
  if conv.all Option.isSome then
    some { cols := d.cols
           dtCols := if d.dtCols.contains c then d.dtCols else c :: d.dtCols
           rows := conv.reduceOption }
  else none

/-- `v < q` on a cell, with pandas semantics: any comparison involving NaN
(or a non-number in this model) is `False`. -/
def valLt (v : Val) (q : ℚ) : Bool :=
  match v with
  | Val.num x => decide (x < q)
  | _ => false

/-- `v > q` on a cell, with the same semantics as `valLt`. -/
def valGt (v : Val) (q : ℚ) : Bool :=
  match v with
  | Val.num x => decide (x > q)
  | _ => false

/-- NaN test. -/
def isNull (v : Val) : Bool := v == Val.null

/-- Numeric value of a cell for a row-wise sum (pandas `sum` skips NaN). -/
def valNumOrZero (v : Val) : ℚ :=
  match v with
  | Val.num q => q
  | _ => 0

/-- The elements marked by pandas `duplicated` (every occurrence after the
first of an equal element), with multiplicity, in order. -/
def dupsAux {β : Type} [DecidableEq β] (seen : List β) : List β → List β
  | [] => []
  | x :: xs =>
    if seen.contains x then x :: dupsAux seen xs else dupsAux (x :: seen) xs

/-- `df[df.duplicated(key)]`'s key values. -/
def duplicatedVals {β : Type} [DecidableEq β] (l : List β) : List β :=
  dupsAux [] l

/-- One issue message, one constructor per `issues.append` site in
data_validation.py; arguments carry the data interpolated into the
message. -/
inductive Issue where
  | stationsEmpty
  | utilizationEmpty
  | hourlyEmpty
  | missingRequiredColumns (cols : List String)
  | duplicateStationIds (n : ℕ)
  | exampleDuplicateIds (vals : List Val)
  | columnMissingValues (col : String) (n : ℕ)
  | invalidLatitude (n : ℕ)
  | invalidLongitude (n : ℕ)
  | missingCoordinates (n : ℕ)
  | unexpectedStatusValues (vals : List Val)
  | stationConnectorSumMismatch (n : ℕ)
  | couldNotConvertTimestamp (col : String)
  | duplicateUtilizationRecords (n : ℕ)
  | faultedStatusFound
  | flagMismatch (flag : String) (n : ℕ)
  | missingHours (hours : List ℕ)
  | duplicateHourlyRecords (n : ℕ)
  | invalidOccupancyRates (n : ℕ)
  | hourlyStatusSumMismatch (n : ℕ)
  | crossUnknownStations (n : ℕ)
  | crossCouldNotConvert (dataset : String)
  | crossExtraTimestamps (n : ℕ)
  | crossStationCountMismatch (a b : ℕ)
deriving DecidableEq, Repr

/-- `issue.startswith("Missing required columns")`: true exactly for the one
message rendered with that prefix. -/
def Issue.isMissingRequiredCols : Issue → Bool
  | Issue.missingRequiredColumns _ => true
  | _ => false

/-- The `is_valid` computation shared by the three validators
(data_validation.py lines 106, 238, 323). -/
def overallValid (issues : List Issue) : Bool :=
  issues.isEmpty || issues.all (fun i => !(i.isMissingRequiredCols))

/-- Required station columns (data_validation.py line 26). -/
def requiredStationCols : List String :=
  ["id", "name", "status", "latitude", "longitude", "total_connectors"]

/-- Critical station columns (data_validation.py line 32). -/
def criticalStationCols : List String := ["id", "status"]

/-- Expected station status vocabulary (data_validation.py line 76). -/
def expectedStationStatuses : List Val :=
  [Val.str "Available", Val.str "Occupied", Val.str "OutOfOrder",
   Val.str "Planned", Val.str "UnderConstruction"]

/-- Duplicate-station-id rule (data_validation.py lines 36-42). -/
def stationsDupIssues (d : DF) : List Issue :=
  if d.cols.contains "id" then
    let dupIds := firstDedup (duplicatedVals (colVals d "id"))
    if dupIds.isEmpty then []
    else
      [Issue.duplicateStationIds dupIds.length] ++
        (if dupIds.length ≤ 10 then
          [Issue.exampleDuplicateIds (dupIds.take 5)]
         else [])
  else []

/-- Completeness rule (data_validation.py lines 44-53). -/
def stationsComplIssues (d : DF) : List Issue :=
  d.cols.flatMap (fun c =>
    let m := (colVals d c).countP isNull
    if m > 0 then [Issue.columnMissingValues c m] else [])

/-- Coordinate-range rule (data_validation.py lines 55-68). -/
def stationsCoordIssues (d : DF) : List Issue :=
  if d.cols.contains "latitude" && d.cols.contains "longitude" then
    let nLat := (colVals d "latitude").countP
      (fun v => valLt v (-90) || valGt v 90)
    let nLon := (colVals d "longitude").countP
      (fun v => valLt v (-180) || valGt v 180)
    let nMiss := d.rows.countP
      (fun r => isNull (getCell r "latitude") || isNull (getCell r "longitude"))
    (if nLat > 0 then [Issue.invalidLatitude nLat] else []) ++
    (if nLon > 0 then [Issue.invalidLongitude nLon] else []) ++
    (if nMiss > 0 then [Issue.missingCoordinates nMiss] else [])
  else []

/-- Status-vocabulary rule (data_validation.py lines 70-80). -/
def stationsStatusIssues (d : DF) : List Issue :=
  if d.cols.contains "status" then
    let distinct := firstDedup ((colVals d "status").filter (fun v => !(isNull v)))
    let unexpected := distinct.filter
      (fun v => !(expectedStationStatuses.contains v))
    if unexpected.isEmpty then []
    else [Issue.unexpectedStatusValues unexpected]
  else []

/-- Total-vs-typed-connector-sum rule (data_validation.py lines 82-103);
note `total_connectors` itself ends with `_connectors` and so also enters
the row-wise sum. -/
def stationsMismatchIssues (d : DF) : List Issue :=
  let connectorCols := d.cols.filter (fun c => c.endsWith "_connectors")
  if d.cols.contains "total_connectors" && !connectorCols.isEmpty then
    let mc := d.rows.countP (fun r =>
      let s : ℚ := (connectorCols.map (fun c => valNumOrZero (getCell r c))).sum
      match getCell r "total_connectors" with
      | Val.num t => decide (s ≠ t)
      | _ => true)
    if mc > 0 then [Issue.stationConnectorSumMismatch mc] else []
  else []

/-- `DataValidator.validate_stations_data` (data_validation.py
lines 11-108), minus the stats dictionary. -/
def validate_stations_data (df : Option DF) : Bool × List Issue :=
  match df with
  | none => (false, [Issue.stationsEmpty])
  | some d =>
    if d.rows.isEmpty then (false, [Issue.stationsEmpty])
    else
      let missing := requiredStationCols.filter (fun c => !(d.cols.contains c))
      let missingIssues :=
        if missing.isEmpty then [] else [Issue.missingRequiredColumns missing]
      let critical := criticalStationCols.filter (fun c => missing.contains c)
      if !critical.isEmpty then (false, missingIssues)
      else
        let issues := missingIssues ++ stationsDupIssues d ++
          stationsComplIssues d ++ stationsCoordIssues d ++
          stationsStatusIssues d ++ stationsMismatchIssues d
        (overallValid issues, issues)

/-- Required utilization columns (data_validation.py lines 125-128). -/
def requiredUtilCols : List String :=
  ["timestamp", "station_id", "connector_id", "status",
   "is_occupied", "is_available", "is_out_of_order"]

/-- Critical utilization columns (data_validation.py line 134). -/
def criticalUtilCols : List String :=
  ["timestamp", "station_id", "connector_id", "status"]

/-- Expected utilization status vocabulary (data_validation.py line 173). -/
def expectedUtilStatuses : List Val :=
  [Val.str "Available", Val.str "Occupied", Val.str "OutOfOrder",
   Val.str "FAULTED"]

/-- Datetime-coercion step for one column (data_validation.py
lines 140-145 / 149-154): skipped when the dtype is already datetime64,
otherwise attempted; on failure the df is left as-is and an issue
recorded. -/
def coerceStep (env : ValidatorEnv) (d : DF) (c : String) :
    DF × List Issue × Bool :=
  if d.cols.contains c then
    if d.dtCols.contains c then (d, [], false)
    else
      match convertCol env d c with
      | some d' => (d', [], false)
      | none => (d, [Issue.couldNotConvertTimestamp c], true)
  else (d, [], false)

/-- Duplicate-utilization-record rule (data_validation.py lines 156-160). -/
def utilDupIssues (d : DF) : List Issue :=
  if d.cols.contains "timestamp" && d.cols.contains "connector_id" then
    let n := (duplicatedVals (d.rows.map
      (fun r => (getCell r "timestamp", getCell r "connector_id")))).length
    if n > 0 then [Issue.duplicateUtilizationRecords n] else []
  else []

/-- Status-vocabulary rule for utilization rows (data_validation.py
lines 162-177). -/
def utilStatusIssues (d : DF) : List Issue :=
  if d.cols.contains "status" then
    let distinct :=
      firstDedup ((colVals d "status").filter (fun v => !(isNull v)))
    let faulted :=
      if distinct.contains (Val.str "FAULTED") then
        [Issue.faultedStatusFound]
      else []
    let unexpected := distinct.filter
      (fun v => !(expectedUtilStatuses.contains v))
    faulted ++
      (if unexpected.isEmpty then []
       else [Issue.unexpectedStatusValues unexpected])
  else []

/-- Flag/status consistency rule (data_validation.py lines 179-200). -/
def utilFlagIssues (d : DF) : List Issue :=
  if ["is_occupied", "is_available", "is_out_of_order", "status"].all
      (fun c => d.cols.contains c) then
    let mismatch (flagCol statusStr : String) : ℕ :=
      d.rows.countP (fun r =>
        ((getCell r flagCol == Val.num 1)) !=
          (getCell r "status" == Val.str statusStr))
    (if mismatch "is_occupied" "Occupied" > 0 then
      [Issue.flagMismatch "is_occupied" (mismatch "is_occupied" "Occupied")]
     else []) ++
    (if mismatch "is_available" "Available" > 0 then
      [Issue.flagMismatch "is_available" (mismatch "is_available" "Available")]
     else []) ++
    (if mismatch "is_out_of_order" "OutOfOrder" > 0 then
      [Issue.flagMismatch "is_out_of_order"
        (mismatch "is_out_of_order" "OutOfOrder")]
     else [])
  else []

/-- Full-24-hour coverage rule (data_validation.py lines 214-225); it only
fires under `expect_full_period`, which the pipeline leaves at its
`False` default.  The source also stores an auxiliary `hour` column on
the df in that branch; that mutation is not modelled (nothing reads it). -/
def utilCoverageIssues (env : ValidatorEnv) (d : DF)
    (expectFullPeriod : Bool) : List Issue :=
  if d.cols.contains "timestamp" && expectFullPeriod then
    let hours := firstDedup ((colVals d "timestamp").map env.hourOf)
    let missingH := (List.range 24).filter (fun h => !(hours.contains h))
    if missingH.isEmpty then [] else [Issue.missingHours missingH]
  else []

/-- `DataValidator.validate_utilization_data` (data_validation.py
lines 110-240), minus the stats dictionary; also returns the (possibly
coerced) df, since the source mutates its argument in place and the
caller's later cross-validation sees the coerced columns. -/
def validate_utilization_data (env : ValidatorEnv) (df : Option DF)
    (expectFullPeriod : Bool) : Bool × List Issue × Option DF :=
  match df with
  | none => (false, [Issue.utilizationEmpty], none)
  | some d =>
    if d.rows.isEmpty then (false, [Issue.utilizationEmpty], some d)
    else
      let missing := requiredUtilCols.filter (fun c => !(d.cols.contains c))
      let missingIssues :=
        if missing.isEmpty then [] else [Issue.missingRequiredColumns missing]
      let critical := criticalUtilCols.filter (fun c => missing.contains c)
      if !critical.isEmpty then (false, missingIssues, some d)
      else
        match coerceStep env d "timestamp" with
        | (d1, tsIssues, tsFailed) =>
          if tsFailed then (false, missingIssues ++ tsIssues, some d1)
          else
            match coerceStep env d1 "hourly_timestamp" with
            | (d2, htIssues, _) =>
              let issues := missingIssues ++ htIssues ++ utilDupIssues d2 ++
                utilStatusIssues d2 ++ utilFlagIssues d2 ++
                utilCoverageIssues env d2 expectFullPeriod
              (overallValid issues, issues, some d2)

/-- Required hourly columns (data_validation.py lines 256-259); none of them
is critical (no early return on absence). -/
def requiredHourlyCols : List String :=
  ["hourly_timestamp", "station_id", "is_available", "is_occupied",
   "is_out_of_order", "total_connectors", "occupancy_rate"]

/-- NaN-propagating cell addition (pandas `+` of two columns). -/
def addVal (a b : Val) : Val :=
  match a, b with
  | Val.num x, Val.num y => Val.num (x + y)
  | _, _ => Val.null

/-- Duplicate-hourly-record rule (data_validation.py lines 274-278). -/
def hourlyDupIssues (d : DF) : List Issue :=
  if d.cols.contains "hourly_timestamp" && d.cols.contains "station_id" then
    let n := (duplicatedVals (d.rows.map
      (fun r => (getCell r "hourly_timestamp", getCell r "station_id")))).length
    if n > 0 then [Issue.duplicateHourlyRecords n] else []
  else []

/-- Occupancy-rate bound rule (data_validation.py lines 280-284). -/
def hourlyRateIssues (d : DF) : List Issue :=
  if d.cols.contains "occupancy_rate" then
    let n := (colVals d "occupancy_rate").countP
      (fun v => valLt v 0 || valGt v 1)
    if n > 0 then [Issue.invalidOccupancyRates n] else []
  else []

/-- Total-vs-status-sum rule (data_validation.py lines 286-298). -/
def hourlySumIssues (d : DF) : List Issue :=
  if ["total_connectors", "is_available", "is_occupied", "is_out_of_order"].all
      (fun c => d.cols.contains c) then
    let mc := d.rows.countP (fun r =>
      let s := addVal (addVal (getCell r "is_available")
        (getCell r "is_occupied")) (getCell r "is_out_of_order")
      match s, getCell r "total_connectors" with
      | Val.num x, Val.num t => decide (x ≠ t)
      | _, _ => true)
    if mc > 0 then [Issue.hourlyStatusSumMismatch mc] else []
  else []

/-- `DataValidator.validate_hourly_data` (data_validation.py lines 242-325),
minus the stats dictionary; returns the possibly-coerced df as well. -/
def validate_hourly_data (env : ValidatorEnv) (d : DF) :
    Bool × List Issue × DF :=
  if d.rows.isEmpty then (false, [Issue.hourlyEmpty], d)
  else
    let missing := requiredHourlyCols.filter (fun c => !(d.cols.contains c))
    let missingIssues :=
      if missing.isEmpty then [] else [Issue.missingRequiredColumns missing]
    match coerceStep env d "hourly_timestamp" with
    | (d1, htIssues, htFailed) =>
      if htFailed then (false, missingIssues ++ htIssues, d1)
      else
        let issues := missingIssues ++ htIssues ++ hourlyDupIssues d1 ++
          hourlyRateIssues d1 ++ hourlySumIssues d1
        (overallValid issues, issues, d1)

/-- Utilization station ids absent from the stations table
(data_validation.py lines 375-379): pandas `set` difference modelled as
first-occurrence-distinct values filtered by non-membership. -/
def missingStationIds (s u : DF) : List Val :=
  (firstDedup (colVals u "station_id")).filter
    (fun v => !((firstDedup (colVals s "id")).contains v))

/-- Cross-validation: station-coverage check (data_validation.py
lines 373-390); `udf` is the utilization df after the in-place coercions. -/
def crossStationCoverage (sdf udf : Option DF) : List Issue :=
  match sdf, udf with
  | some s, some u =>
    if s.cols.contains "id" && u.cols.contains "station_id" then
      let missingStations := missingStationIds s u
      if missingStations.isEmpty then []
      else [Issue.crossUnknownStations missingStations.length]
    else []
  | _, _ => []

/-- Formatted hourly timestamps of the hourly table that the utilization
table lacks (data_validation.py lines 411-417). -/
def extraHourlyTimestamps (env : ValidatorEnv) (u h : DF) : List String :=
  (firstDedup ((colVals h "hourly_timestamp").map env.fmt)).filter
    (fun t => !((firstDedup ((colVals u "hourly_timestamp").map env.fmt)).contains t))

/-- `nunique` of a column: distinct non-null values
(data_validation.py lines 424-425). -/
def nuniqueNonNull (d : DF) (c : String) : ℕ :=
  (firstDedup ((colVals d c).filter (fun v => !(isNull v)))).length

/-- Cross-validation: hourly-vs-utilization checks (data_validation.py
lines 393-430). -/
def crossHourlyChecks (env : ValidatorEnv) (udf hdf : Option DF) : List Issue :=
  match udf, hdf with
  | some u, some h =>
    if u.cols.contains "hourly_timestamp" && h.cols.contains "hourly_timestamp" then
      let pu : DF × List Issue :=
        if u.dtCols.contains "hourly_timestamp" then (u, [])
        else
          match convertCol env u "hourly_timestamp" with
          | some x => (x, [])
          | none => (u, [Issue.crossCouldNotConvert "utilization"])
      let ph : DF × List Issue :=
        if h.dtCols.contains "hourly_timestamp" then (h, [])
        else
          match convertCol env h "hourly_timestamp" with
          | some x => (x, [])
          | none => (h, [Issue.crossCouldNotConvert "hourly"])
      let extra := extraHourlyTimestamps env pu.1 ph.1
      let extraIssues :=
        if extra.isEmpty then [] else [Issue.crossExtraTimestamps extra.length]
      let countIssues :=
        if pu.1.cols.contains "station_id" && ph.1.cols.contains "station_id" then
          let a := nuniqueNonNull pu.1 "station_id"
          let b := nuniqueNonNull ph.1 "station_id"
          if a ≠ b then [Issue.crossStationCountMismatch a b] else []
        else []
      pu.2 ++ ph.2 ++ extraIssues ++ countIssues
    else []
  | _, _ => []

/-- `DataValidator.validate_etl_pipeline` (data_validation.py lines 327-436),
minus the report dictionary: composes the three validators (the
utilization validator runs with `expect_full_period=False`, its default),
then the cross-dataset checks; the cross checks see the coerced frames
because the per-dataset validators mutate their argument in place.  The
source's dataset-tag prefixes on the combined issue list are dropped
(they are applied after each validator's `is_valid` is computed and are
never tested). -/
def validate_etl_pipeline (env : ValidatorEnv) (sdf udf hdf : Option DF) :
    Bool × List Issue :=
  let sres := validate_stations_data sdf
  let ures := validate_utilization_data env udf false
  let hres : Bool × List Issue × Option DF :=
    match hdf with
    | some h =>
      let r := validate_hourly_data env h
      (r.1, r.2.1, some r.2.2)
    | none => (true, [], none)
  let base := hres.1 && sres.1 && ures.1
  let cross := crossStationCoverage sdf ures.2.2 ++
    crossHourlyChecks env ures.2.2 hres.2.2
  (base && cross.isEmpty, hres.2.1 ++ sres.2 ++ ures.2.1 ++ cross)

/-! ## Lemmas about the persister merge -/

section PersisterLemmas

variable {α κ : Type} [DecidableEq κ]

theorem mem_of_mem_dedupKeepLast (key : α → κ) {x : α} {l : List α}
    (h : x ∈ dedupKeepLast key l) : x ∈ l := by
  induction l with
  | nil => simp [dedupKeepLast] at h
  | cons a as ih =>
    simp only [dedupKeepLast] at h
    split at h
    · exact List.mem_cons_of_mem _ (ih h)
    · rcases List.mem_cons.mp h with h' | h'
      · exact h' ▸ List.mem_cons_self _ _
      · exact List.mem_cons_of_mem _ (ih h')

theorem sublist_dedupKeepLast (key : α → κ) (l : List α) :
    (dedupKeepLast key l).Sublist l := by
  induction l with
  | nil => simp [dedupKeepLast]
  | cons a as ih =>
    simp only [dedupKeepLast]
    split
    · exact ih.cons a
    · exact ih.cons₂ a

theorem dedupKeepLast_cons_pos (key : α → κ) {x : α} {xs : List α}
    (h : xs.any (fun y => decide (key y = key x)) = true) :
    dedupKeepLast key (x :: xs) = dedupKeepLast key xs := by
  simp [dedupKeepLast, h]

theorem dedupKeepLast_cons_neg (key : α → κ) {x : α} {xs : List α}
    (h : xs.any (fun y => decide (key y = key x)) = false) :
    dedupKeepLast key (x :: xs) = x :: dedupKeepLast key xs := by
  simp [dedupKeepLast, h]

theorem dedupKeepLast_append (key : α → κ) (a b : List α) :
    dedupKeepLast key (a ++ b) =
      ((dedupKeepLast key a).filter
        (fun x => !(b.any (fun y => decide (key y = key x))))) ++
        dedupKeepLast key b := by
  induction a with
  | nil => simp [dedupKeepLast]
  | cons x xs ih =>
    rw [List.cons_append]
    by_cases h1 : xs.any (fun y => decide (key y = key x)) = true
    · have hl : (xs ++ b).any (fun y => decide (key y = key x)) = true := by
        rw [List.any_append, h1, Bool.true_or]
      rw [dedupKeepLast_cons_pos key hl, dedupKeepLast_cons_pos key h1, ih]
    · have h1' : xs.any (fun y => decide (key y = key x)) = false :=
        Bool.eq_false_iff.mpr h1
      by_cases h2 : b.any (fun y => decide (key y = key x)) = true
      · have hl : (xs ++ b).any (fun y => decide (key y = key x)) = true := by
          rw [List.any_append, h2, Bool.or_true]
        rw [dedupKeepLast_cons_pos key hl, dedupKeepLast_cons_neg key h1', ih,
          List.filter_cons_of_neg (by simp [h2])]
      · have h2' : b.any (fun y => decide (key y = key x)) = false :=
          Bool.eq_false_iff.mpr h2
        have hl : (xs ++ b).any (fun y => decide (key y = key x)) = false := by
          rw [List.any_append, h1', h2', Bool.or_false]
        rw [dedupKeepLast_cons_neg key hl, dedupKeepLast_cons_neg key h1', ih,
          List.filter_cons_of_pos (by simp [h2']), List.cons_append]

theorem nodupKeys_dedupKeepLast (key : α → κ) (l : List α) :
    nodupKeys key (dedupKeepLast key l) := by
  induction l with
  | nil => simp [dedupKeepLast, nodupKeys]
  | cons x xs ih =>
    simp only [dedupKeepLast]
    split
    · exact ih
    · rename_i h
      simp only [nodupKeys, List.map_cons, List.nodup_cons]
      refine ⟨fun hmem => ?_, ih⟩
      rcases List.mem_map.mp hmem with ⟨y, hy, hky⟩
      exact h (List.any_eq_true.mpr
        ⟨y, mem_of_mem_dedupKeepLast key hy, decide_eq_true hky⟩)

theorem dedupKeepLast_eq_self (key : α → κ) {l : List α} (h : nodupKeys key l) :
    dedupKeepLast key l = l := by
  induction l with
  | nil => rfl
  | cons x xs ih =>
    simp only [nodupKeys, List.map_cons, List.nodup_cons] at h
    have hany : xs.any (fun y => decide (key y = key x)) = false := by
      rw [List.any_eq_false]
      intro y hy
      simp only [decide_eq_true_eq]
      intro hk
      exact h.1 (List.mem_map.mpr ⟨y, hy, hk⟩)
    simp only [dedupKeepLast, hany, Bool.false_eq_true, if_false, ih h.2]

theorem lastWithKey_dedupKeepLast (key : α → κ) (l : List α) (k : κ) :
    lastWithKey key (dedupKeepLast key l) k = lastWithKey key l k := by
  induction l with
  | nil => rfl
  | cons x xs ih =>
    simp only [dedupKeepLast]
    split
    · rename_i h
      rw [ih]
      unfold lastWithKey
      by_cases hk : key x = k
      · rcases List.any_eq_true.mp h with ⟨y, hy, hky⟩
        have hky' : key y = k := (of_decide_eq_true hky).trans hk
        have hmem : y ∈ xs.filter (fun r => decide (key r = k)) :=
          List.mem_filter.mpr ⟨hy, decide_eq_true hky'⟩
        have hne : xs.filter (fun r => decide (key r = k)) ≠ [] := by
          intro hnil
          rw [hnil] at hmem
          exact absurd hmem (List.not_mem_nil y)
        rw [List.filter_cons_of_pos (by simp [hk])]
        rcases List.exists_cons_of_ne_nil hne with ⟨c, cs, hcs⟩
        rw [hcs, List.getLast?_cons_cons]
      · rw [List.filter_cons_of_neg (by simp [hk])]
    · rename_i h
      unfold lastWithKey
      by_cases hk : key x = k
      · have hnil : xs.filter (fun r => decide (key r = k)) = [] := by
          rw [List.filter_eq_nil_iff]
          intro y hy hdec
          exact h (List.any_eq_true.mpr
            ⟨y, hy, decide_eq_true ((of_decide_eq_true hdec).trans hk.symm)⟩)
        have hnil' : (dedupKeepLast key xs).filter (fun r => decide (key r = k)) = [] := by
          rw [List.filter_eq_nil_iff]
          intro y hy hdec
          exact h (List.any_eq_true.mpr
            ⟨y, mem_of_mem_dedupKeepLast key hy,
             decide_eq_true ((of_decide_eq_true hdec).trans hk.symm)⟩)
        rw [List.filter_cons_of_pos (by simp [hk]),
          List.filter_cons_of_pos (by simp [hk]), hnil, hnil']
      · rw [List.filter_cons_of_neg (by simp [hk]),
          List.filter_cons_of_neg (by simp [hk])]
        exact ih

theorem lastWithKey_append_right (key : α → κ) {e inc : List α} {k : κ}
    (h : (inc.any fun r => decide (key r = k)) = true) :
    lastWithKey key (e ++ inc) k = lastWithKey key inc k := by
  unfold lastWithKey
  rw [List.filter_append]
  apply List.getLast?_append_of_ne_nil
  rcases List.any_eq_true.mp h with ⟨y, hy, hd⟩
  intro hnil
  have hmem : y ∈ inc.filter (fun r => decide (key r = k)) :=
    List.mem_filter.mpr ⟨hy, hd⟩
  rw [hnil] at hmem
  exact absurd hmem (List.not_mem_nil y)

end PersisterLemmas

/-! ## Claims C2, C3, C6 — the persister -/

/-- C2: with no prior table the incoming rowset is written verbatim;
otherwise the merged table is `existing ++ incoming` with duplicate dedup
keys removed keeping the last occurrence — a sub-sequence of the
concatenation, free of duplicate keys, in which every key keeps the last
row the concatenation holds for it, so every key present in the incoming
rowset is won by the last incoming row with that key; in particular the
spec's scenario merging `[(1, Available)]` with
`[(1, Occupied), (2, Available)]` on key `id` yields
`[(1, Occupied), (2, Available)]`. -/
theorem save_to_csv_merge_semantics {α κ : Type} [DecidableEq κ] (key : α → κ)
    (existing incoming : List α) :
    save_table key none incoming = incoming ∧
    (save_table key (some existing) incoming).Sublist (existing ++ incoming) ∧
    nodupKeys key (save_table key (some existing) incoming) ∧
    (∀ k : κ, lastWithKey key (save_table key (some existing) incoming) k =
      lastWithKey key (existing ++ incoming) k) ∧
    (∀ k : κ, (incoming.any fun r => decide (key r = k)) = true →
      lastWithKey key (save_table key (some existing) incoming) k =
        lastWithKey key incoming k) ∧
    save_table (fun p : ℕ × String => p.1) (some [(1, "Available")])
      [(1, "Occupied"), (2, "Available")] = [(1, "Occupied"), (2, "Available")] := by
  refine ⟨rfl, sublist_dedupKeepLast key _, nodupKeys_dedupKeepLast key _,
    fun k => lastWithKey_dedupKeepLast key _ k, fun k hk => ?_, by decide⟩
  rw [show save_table key (some existing) incoming =
    dedupKeepLast key (existing ++ incoming) from rfl,
    lastWithKey_dedupKeepLast key _ k, lastWithKey_append_right key hk]

/-- Witness for C2 at the spec's scenario: key `1` occurs in the incoming
rowset, and the merged table's row for key `1` is the incoming one. -/
theorem save_to_csv_merge_semantics_witness :
    (([(1, "Occupied"), (2, "Available")] : List (ℕ × String)).any
      fun r => decide (r.1 = 1)) = true ∧
    lastWithKey (fun p : ℕ × String => p.1)
      (save_table (fun p : ℕ × String => p.1) (some [(1, "Available")])
        [(1, "Occupied"), (2, "Available")]) 1 =
      lastWithKey (fun p : ℕ × String => p.1) [(1, "Occupied"), (2, "Available")] 1 :=
  ⟨by decide,
    (save_to_csv_merge_semantics (fun p : ℕ × String => p.1) [(1, "Available")]
      [(1, "Occupied"), (2, "Available")]).2.2.2.2.1 1 (by decide)⟩

/-- C3 counterexample: on the no-prior-table path `save_to_csv` writes the
incoming rows verbatim with no deduplication, so an incoming rowset that
already contains two rows with dedup key `1` is persisted with both rows,
contradicting the claim that the persisted table never holds two rows
sharing the dedup key. -/
theorem save_to_csv_no_dedup_verbatim_counterexample :
    save_table (fun p : ℕ × String => p.1) none [(1, "a"), (1, "b")] =
      [(1, "a"), (1, "b")] ∧
    ¬ nodupKeys (fun p : ℕ × String => p.1)
      (save_table (fun p : ℕ × String => p.1) none [(1, "a"), (1, "b")]) :=
  ⟨rfl, by unfold nodupKeys save_table; decide⟩

/-- C3 amended: after a `save_to_csv` call that takes the merge-with-existing
path, the persisted table contains no two rows sharing the dedup key, even
when the incoming rowset itself contains duplicate keys; on the
no-prior-table path the incoming rowset is written verbatim, so duplicate
keys inside it survive. -/
theorem merged_table_nodup_keys {α κ : Type} [DecidableEq κ] (key : α → κ)
    (existing incoming : List α) :
    nodupKeys key (save_table key (some existing) incoming) :=
  nodupKeys_dedupKeepLast key (existing ++ incoming)

/-- C6: the persister merge is idempotent — merging the same incoming rowset
again against the table obtained from the first merge reproduces that
table exactly (same rows, same order). -/
theorem merge_idempotent {α κ : Type} [DecidableEq κ] (key : α → κ)
    (existing incoming : List α) :
    mergeTables key (mergeTables key existing incoming) incoming =
      mergeTables key existing incoming := by
  unfold mergeTables
  rw [dedupKeepLast_append key _ incoming,
    dedupKeepLast_eq_self key (nodupKeys_dedupKeepLast key (existing ++ incoming)),
    dedupKeepLast_append key existing incoming, List.filter_append]
  have h1 : ((dedupKeepLast key existing).filter
        (fun x => !(incoming.any (fun y => decide (key y = key x))))).filter
        (fun x => !(incoming.any (fun y => decide (key y = key x)))) =
      (dedupKeepLast key existing).filter
        (fun x => !(incoming.any (fun y => decide (key y = key x)))) :=
    List.filter_eq_self.mpr (fun a ha => (List.mem_filter.mp ha).2)
  have h2 : (dedupKeepLast key incoming).filter
      (fun x => !(incoming.any (fun y => decide (key y = key x)))) = [] := by
    rw [List.filter_eq_nil_iff]
    intro a ha hpa
    have hany : incoming.any (fun y => decide (key y = key a)) = true :=
      List.any_eq_true.mpr ⟨a, mem_of_mem_dedupKeepLast key ha, decide_eq_true rfl⟩
    simp [hany] at hpa
  rw [h1, h2, List.append_nil]

/-! ## Claims C1, C9 — station derivation -/

/-- The status field of a produced station record, as a function of the
resolved totals (transform.py lines 72-103, 110). -/
theorem transformStation_status (s : Station) (avail : ℕ)
    (h : availableConnectorsOf s = some avail) (r : StationRecord)
    (hr : transformStation s = some r) :
    r.status =
      if resolvedTotalConnectors s = 0 then statusWhenNoConnectors s
      else statusFromConnectors avail (resolvedTotalConnectors s) s := by
  unfold transformStation at hr
  rw [h] at hr
  obtain rfl := Option.some.inj hr
  rfl

/-- Station with `totalConnectors: 2` and raw status `UNAVAILABLE`, no
connector data. -/
def stationC1 : Station :=
  { Station.empty with
      totalConnectors := some (Val.num 2)
      status := some (Val.str "UNAVAILABLE") }

/-- C1 counterexample: `stationC1` has resolved `total_connectors = 2 > 0`
and `available_connectors = 0`, and its own raw status `UNAVAILABLE` maps
through the synonym table to `OutOfOrder`; yet `transform_stations_data`
derives `Occupied` — the mapped value does not win, contradicting the
claim (the override branch at transform.py lines 93-103 is unreachable
when `total_connectors > 0`). -/
theorem station_status_override_counterexample :
    resolvedTotalConnectors stationC1 = 2 ∧
    availableConnectorsOf stationC1 = some 0 ∧
    statusMapping "UNAVAILABLE" = some "OutOfOrder" ∧
    (transform_stations_data [stationC1]).map (fun r => r.status) =
      [Val.str "Occupied"] :=
  ⟨rfl, rfl, rfl, rfl⟩

/-- C1 amended: for every raw station with resolved `total_connectors > 0`
and `available_connectors = 0`, the derived status is `Occupied`
regardless of the station's own raw status; the synonym-table override to
`OutOfOrder`/`Planned`/`UnderConstruction` can only fire when
`total_connectors` is nonzero yet not positive. -/
theorem station_status_occupied_when_none_available (s : Station)
    (r : StationRecord) (hr : transformStation s = some r)
    (htot : resolvedTotalConnectors s > 0)
    (havail : availableConnectorsOf s = some 0) :
    r.status = Val.str "Occupied" := by
  rw [transformStation_status s 0 havail r hr, if_neg (ne_of_gt htot),
    statusFromConnectors, if_neg (lt_irrefl 0), if_pos ⟨rfl, htot⟩]

/-- A throwaway station record used to state closed witnesses. -/
def StationRecord.dummy : StationRecord :=
  ⟨Val.null, Val.null, Val.null, Val.null, Val.null, Val.null, Val.null,
   Val.null, 0, 0, 0, 0, 0, ""⟩

/-- Witness for the amended C1 at `stationC1`. -/
theorem station_status_occupied_when_none_available_witness :
    resolvedTotalConnectors stationC1 > 0 ∧
    availableConnectorsOf stationC1 = some 0 ∧
    ((transformStation stationC1).getD StationRecord.dummy).status =
      Val.str "Occupied" :=
  ⟨by norm_num [resolvedTotalConnectors, totalConnectorsRaw, stationC1,
      connectorsListOf, Station.empty],
   rfl,
   station_status_occupied_when_none_available stationC1
     ((transformStation stationC1).getD StationRecord.dummy) rfl
     (by norm_num [resolvedTotalConnectors, totalConnectorsRaw, stationC1,
        connectorsListOf, Station.empty])
     rfl⟩

/-- A connector whose type is the synonym bucket `AC Type 2`. -/
def connC9 : Connector :=
  { Connector.empty with type := some (Val.str "AC Type 2") }

/-- Station with a single resolved connector of type `AC Type 2`. -/
def stationC9 : Station :=
  { Station.empty with connectors := some [connC9] }

/-- C9: for a station whose single resolved connector has type `AC Type 2`,
folding the synonym bucket into `Type2` once — as the claim and the code's
own comment at transform.py line 64 state — yields 1, but the emitted
`type2_connectors` is 2: the bucket is added once by the fold at line 65
and a second time in the record at line 118. -/
theorem type2_double_count_eval :
    countBucket [connC9] "Type2" + countBucket [connC9] "AC Type 2" = 1 ∧
    (transform_stations_data [stationC9]).map (fun r => r.type2_connectors) =
      [2] :=
  ⟨rfl, rfl⟩

/-! ## Claim C4 — utilization flag consistency -/

/-- The flag triple `(is_available, is_occupied, is_out_of_order)` the spec
prescribes for a normalized status: exactly the matching flag is 1 for the
three canonical values, all three are 0 for anything else. -/
def specFlags (v : Val) : ℕ × ℕ × ℕ :=
  if v = Val.str "Available" then (1, 0, 0)
  else if v = Val.str "Occupied" then (0, 1, 0)
  else if v = Val.str "OutOfOrder" then (0, 0, 1)
  else (0, 0, 0)

/-- The normalized connector status is never the raw string `UNAVAILABLE`:
that raw value (in any case) is mapped to `OutOfOrder`, so the
`UNAVAILABLE` disjunct in the `is_out_of_order` flag can never fire. -/
theorem normalizeUtilStatus_ne_UNAVAILABLE (v : Option Val) :
    normalizeUtilStatus v ≠ Val.str "UNAVAILABLE" := by
  unfold normalizeUtilStatus
  match v with
  | none => exact fun h => Val.noConfusion h
  | some Val.null => exact fun h => Val.noConfusion h
  | some (Val.num q) => exact fun h => Val.noConfusion h
  | some (Val.dt t) => exact fun h => Val.noConfusion h
  | some (Val.str s) =>
    show (if s = "" then Val.str ""
      else Val.str ((utilStatusMapping (pyUpper s)).getD s)) ≠ Val.str "UNAVAILABLE"
    by_cases hs : s = ""
    · rw [if_pos hs]
      intro h
      exact absurd (Val.str.inj h) (by decide)
    · rw [if_neg hs]
      intro h
      have hval := Val.str.inj h
      cases hm : utilStatusMapping (pyUpper s) with
      | none =>
        rw [hm] at hval
        simp only [Option.getD_none] at hval
        subst hval
        have : utilStatusMapping (pyUpper "UNAVAILABLE") = some "OutOfOrder" := by decide
        rw [this] at hm
        exact Option.noConfusion hm
      | some t =>
        rw [hm] at hval
        simp only [Option.getD_some] at hval
        subst hval
        unfold utilStatusMapping at hm
        split_ifs at hm <;> simp_all

/-- C4: for every emitted utilization record, the three flags equal exactly
the spec-prescribed triple for the record's normalized status — one
matching flag for `Available`/`Occupied`/`OutOfOrder`, all zeros for any
other status value (e.g. `FAULTED`, a missing status, or a non-string
status). -/
theorem utilization_flags_consistent (ts : PyTimestamp) (sid : Val)
    (c : Connector) :
    ((utilRecordOf ts sid c).is_available, (utilRecordOf ts sid c).is_occupied,
      (utilRecordOf ts sid c).is_out_of_order) =
      specFlags (utilRecordOf ts sid c).status := by
  have hshape : ((utilRecordOf ts sid c).is_available,
      (utilRecordOf ts sid c).is_occupied,
      (utilRecordOf ts sid c).is_out_of_order) =
      ((if normalizeUtilStatus c.status = Val.str "Available" then 1 else 0 : ℕ),
       (if normalizeUtilStatus c.status = Val.str "Occupied" then 1 else 0 : ℕ),
       (if normalizeUtilStatus c.status = Val.str "OutOfOrder" ∨
          normalizeUtilStatus c.status = Val.str "UNAVAILABLE" then 1 else 0 : ℕ)) :=
    rfl
  have hstat : (utilRecordOf ts sid c).status = normalizeUtilStatus c.status := rfl
  rw [hshape, hstat]
  by_cases h1 : normalizeUtilStatus c.status = Val.str "Available"
  · rw [h1]; decide
  · by_cases h2 : normalizeUtilStatus c.status = Val.str "Occupied"
    · rw [h2]; decide
    · by_cases h3 : normalizeUtilStatus c.status = Val.str "OutOfOrder"
      · rw [h3]; decide
      · have h4 := normalizeUtilStatus_ne_UNAVAILABLE c.status
        rw [specFlags, if_neg h1, if_neg h2, if_neg h3, if_neg h1, if_neg h2,
          if_neg (fun h => h.elim h3 h4)]

/-! ## Claim C5 — hourly aggregate bounds -/

theorem mem_of_mem_firstDedupAux {β : Type} [DecidableEq β] {x : β} :
    ∀ {l seen : List β}, x ∈ firstDedupAux seen l → x ∈ l := by
  intro l
  induction l with
  | nil => intro seen h; simp [firstDedupAux] at h
  | cons a as ih =>
    intro seen h
    simp only [firstDedupAux] at h
    split at h
    · exact List.mem_cons_of_mem _ (ih h)
    · rcases List.mem_cons.mp h with h' | h'
      · exact h' ▸ List.mem_cons_self _ _
      · exact List.mem_cons_of_mem _ (ih h')

theorem mem_of_mem_firstDedup {β : Type} [DecidableEq β] {x : β} {l : List β}
    (h : x ∈ firstDedup l) : x ∈ l :=
  mem_of_mem_firstDedupAux h

/-- Every flag on an emitted utilization record is 0 or 1. -/
theorem utilRecord_flags_le_one (stations : List Station) (ts : PyTimestamp)
    {r : UtilRecord} (hr : r ∈ transform_utilization_data stations ts) :
    r.is_occupied ≤ 1 ∧ r.is_available ≤ 1 := by
  unfold transform_utilization_data at hr
  rcases List.mem_flatMap.mp hr with ⟨s, _, hr2⟩
  rcases List.mem_map.mp hr2 with ⟨c, _, rfl⟩
  constructor
  · show (if normalizeUtilStatus c.status = Val.str "Occupied" then 1 else 0) ≤ 1
    split <;> omega
  · show (if normalizeUtilStatus c.status = Val.str "Available" then 1 else 0) ≤ 1
    split <;> omega

/-- Timestamp used in concrete C5 inputs. -/
def tsC5 : PyTimestamp := { iso := "T", hourIso := "H" }

/-- Occupied connector carrying no `id`. -/
def connC5a : Connector :=
  { Connector.empty with status := some (Val.str "OCCUPIED") }

/-- Occupied connector with an `id`. -/
def connC5b : Connector :=
  { Connector.empty with
      id := some (Val.str "K2")
      status := some (Val.str "OCCUPIED") }

/-- Station with two occupied connectors, one of which lacks an `id`. -/
def stationC5 : Station :=
  { Station.empty with
      id := some (Val.str "S1")
      connectors := some [connC5a, connC5b] }

/-- A throwaway hourly record used to state closed witnesses. -/
def HourlyRecord.dummy : HourlyRecord :=
  ⟨"", Val.null, 0, 0, 0, 0, 0, 0⟩

/-- C5 counterexample: aggregating the utilization rows of `stationC5` (two
occupied connectors, one with a null `connector_id`) yields one hourly row
with `total_connectors = 1 > 0` — pandas `count` skips the null id — but
`is_occupied = 2`, so `occupancy_rate = 2/1 = 2`, outside `[0,1]`,
refuting the claim. -/
theorem hourly_rate_counterexample :
    ((aggregate_hourly_utilization (transform_utilization_data [stationC5] tsC5)).map
      (fun h => (h.total_connectors, h.is_occupied)) = [(1, 2)]) ∧
    ¬ (((aggregate_hourly_utilization
        (transform_utilization_data [stationC5] tsC5)).getD 0
        HourlyRecord.dummy).occupancy_rate ≤ 1) := by
  constructor
  · decide
  · have hval : ((aggregate_hourly_utilization
        (transform_utilization_data [stationC5] tsC5)).getD 0
        HourlyRecord.dummy).occupancy_rate = ((2 : ℕ) : ℚ) / ((1 : ℕ) : ℚ) := rfl
    rw [hval]
    norm_num

/-- C5 amended: every hourly aggregate row built from utilization rows that
all carry a non-null `connector_id` has `total_connectors > 0` and both
rates within `[0,1]`; a null `connector_id` (a raw connector without an
`id` field) is excluded from the pandas `count` while its flags still
enter the sums, which can push a rate above 1 or the count to 0. -/
theorem hourly_rates_bounded (stations : List Station) (ts : PyTimestamp)
    (hids : ∀ r ∈ transform_utilization_data stations ts,
      r.connector_id ≠ Val.null) :
    ∀ h ∈ aggregate_hourly_utilization (transform_utilization_data stations ts),
      0 < h.total_connectors ∧
      0 ≤ h.occupancy_rate ∧ h.occupancy_rate ≤ 1 ∧
      0 ≤ h.availability_rate ∧ h.availability_rate ≤ 1 := by
  intro h hm
  rcases List.mem_map.mp hm with ⟨k, hk, rfl⟩
  have hfilter := (List.mem_filter.mp (mem_of_mem_firstDedup hk)).1
  rcases List.mem_map.mp hfilter with ⟨r0, hr0u, hr0k⟩
  have hr0g : r0 ∈ (transform_utilization_data stations ts).filter
      (fun r => r.hourly_timestamp == k.1 && r.station_id == k.2) := by
    refine List.mem_filter.mpr ⟨hr0u, ?_⟩
    have h1 : r0.hourly_timestamp = k.1 := congrArg Prod.fst hr0k
    have h2 : r0.station_id = k.2 := congrArg Prod.snd hr0k
    simp [h1, h2]
  set u := transform_utilization_data stations ts with hu
  set g := u.filter (fun r => r.hourly_timestamp == k.1 && r.station_id == k.2)
    with hgdef
  have hglen : 0 < g.length :=
    List.length_pos.mpr (List.ne_nil_of_mem hr0g)
  have hsub : ∀ r ∈ g, r ∈ u := fun r hr => (List.mem_filter.mp hr).1
  have htot : g.countP (fun r => !(r.connector_id == Val.null)) = g.length := by
    rw [List.countP_eq_length]
    intro r hr
    have hne := hids r (hsub r hr)
    simp [hne]
  have hocc : (g.map (fun r => r.is_occupied)).sum ≤ g.length := by
    have := List.sum_le_card_nsmul (g.map (fun r => r.is_occupied)) 1 ?_
    · simpa [smul_eq_mul] using this
    · intro x hx
      rcases List.mem_map.mp hx with ⟨r, hr, rfl⟩
      exact (utilRecord_flags_le_one stations ts (hsub r hr)).1
  have havail : (g.map (fun r => r.is_available)).sum ≤ g.length := by
    have := List.sum_le_card_nsmul (g.map (fun r => r.is_available)) 1 ?_
    · simpa [smul_eq_mul] using this
    · intro x hx
      rcases List.mem_map.mp hx with ⟨r, hr, rfl⟩
      exact (utilRecord_flags_le_one stations ts (hsub r hr)).2
  refine ⟨?_, ?_, ?_, ?_, ?_⟩
  · show 0 < g.countP (fun r => !(r.connector_id == Val.null))
    rw [htot]; exact hglen
  · show (0 : ℚ) ≤ (((g.map (fun r => r.is_occupied)).sum : ℕ) : ℚ) /
      ((g.countP (fun r => !(r.connector_id == Val.null)) : ℕ) : ℚ)
    exact div_nonneg (Nat.cast_nonneg _) (Nat.cast_nonneg _)
  · show (((g.map (fun r => r.is_occupied)).sum : ℕ) : ℚ) /
      ((g.countP (fun r => !(r.connector_id == Val.null)) : ℕ) : ℚ) ≤ 1
    rw [htot, div_le_one (by exact_mod_cast hglen)]
    exact_mod_cast hocc
  · show (0 : ℚ) ≤ (((g.map (fun r => r.is_available)).sum : ℕ) : ℚ) /
      ((g.countP (fun r => !(r.connector_id == Val.null)) : ℕ) : ℚ)
    exact div_nonneg (Nat.cast_nonneg _) (Nat.cast_nonneg _)
  · show (((g.map (fun r => r.is_available)).sum : ℕ) : ℚ) /
      ((g.countP (fun r => !(r.connector_id == Val.null)) : ℕ) : ℚ) ≤ 1
    rw [htot, div_le_one (by exact_mod_cast hglen)]
    exact_mod_cast havail

/-- Station whose single connector carries an id — healthy C5 input. -/
def stationC5W : Station :=
  { Station.empty with
      id := some (Val.str "S1")
      connectors := some [connC5b] }

/-- Witness for the amended C5 at `stationC5W`: the hypothesis holds (every
record has a non-null connector id) and the single hourly row satisfies
the bounds. -/
theorem hourly_rates_bounded_witness :
    (∀ r ∈ transform_utilization_data [stationC5W] tsC5,
      r.connector_id ≠ Val.null) ∧
    0 < ((aggregate_hourly_utilization
        (transform_utilization_data [stationC5W] tsC5)).getD 0
        HourlyRecord.dummy).total_connectors ∧
    ((aggregate_hourly_utilization
        (transform_utilization_data [stationC5W] tsC5)).getD 0
        HourlyRecord.dummy).occupancy_rate ≤ 1 :=
  ⟨by decide,
   ((hourly_rates_bounded [stationC5W] tsC5 (by decide) _
      (List.Mem.head _)).1),
   ((hourly_rates_bounded [stationC5W] tsC5 (by decide) _
      (List.Mem.head _)).2.2.1)⟩

/-! ## Claim C7 — extractor retry behaviour -/

theorem extractGo_attempts_le (outcomes : ℕ → AttemptOutcome) (m : ℕ) :
    ∀ fuel idx, idx + fuel = m + 1 →
      (extractGo outcomes m idx fuel).2 ≤ m + 1 := by
  intro fuel
  induction fuel with
  | zero =>
    intro idx h
    simp [extractGo]
  | succ f ih =>
    intro idx h
    cases ho : outcomes idx with
    | success body => simp [extractGo, ho]; omega
    | parseError => simp [extractGo, ho]; omega
    | transportError =>
      simp only [extractGo, ho]
      split
      · exact ih (idx + 1) (by omega)
      · simp; omega

theorem extractGo_stops_at_first_non_transport (outcomes : ℕ → AttemptOutcome)
    (m k : ℕ) (hk : k ≤ m)
    (hpre : ∀ i, i < k → outcomes i = AttemptOutcome.transportError)
    (hstop : outcomes k ≠ AttemptOutcome.transportError) :
    ∀ fuel idx, idx ≤ k → idx + fuel = m + 1 →
      extractGo outcomes m idx fuel =
        ((match outcomes k with
          | AttemptOutcome.success body => handleResponse body
          | _ => none), k + 1) := by
  intro fuel
  induction fuel with
  | zero =>
    intro idx hik h
    omega
  | succ f ih =>
    intro idx hik h
    by_cases hidx : idx = k
    · subst hidx
      cases ho : outcomes idx with
      | success body => simp [extractGo, ho]
      | parseError => simp [extractGo, ho]
      | transportError => exact absurd ho hstop
    · have hlt : idx < k := lt_of_le_of_ne hik hidx
      have ho := hpre idx hlt
      simp only [extractGo, ho]
      rw [if_pos (by omega)]
      exact ih (idx + 1) (by omega) (by omega)

theorem extractGo_all_transport (outcomes : ℕ → AttemptOutcome) (m : ℕ)
    (hall : ∀ i, i ≤ m → outcomes i = AttemptOutcome.transportError) :
    ∀ fuel idx, idx ≤ m → idx + fuel = m + 1 →
      extractGo outcomes m idx fuel = (none, m + 1) := by
  intro fuel
  induction fuel with
  | zero =>
    intro idx hik h
    omega
  | succ f ih =>
    intro idx hik h
    have ho := hall idx hik
    simp only [extractGo, ho]
    by_cases hlt : idx < m
    · rw [if_pos hlt]
      exact ih (idx + 1) (by omega) (by omega)
    · rw [if_neg hlt]
      have : idx = m := by omega
      rw [this]

/-- C7: for every attempt oracle and every `max_retries` value `m`,
`extract_charging_stations` issues at most `m + 1` request attempts; if
the first `k ≤ m` attempts fail at transport level and attempt `k` does
not, the loop stops right there after exactly `k + 1` attempts — so
retries happen only on transport failures — and when that attempt `k`
raises a JSON parse error the function fails immediately with no data and
no further attempts; if all `m + 1` attempts fail at transport level it
fails with no data after exactly `m + 1` attempts. -/
theorem extract_retry_behavior (outcomes : ℕ → AttemptOutcome) (m : ℕ) :
    (extract_charging_stations outcomes m).2 ≤ m + 1 ∧
    (∀ k, k ≤ m → (∀ i, i < k → outcomes i = AttemptOutcome.transportError) →
      outcomes k ≠ AttemptOutcome.transportError →
      ((extract_charging_stations outcomes m).2 = k + 1 ∧
        (outcomes k = AttemptOutcome.parseError →
          (extract_charging_stations outcomes m).1 = none))) ∧
    ((∀ i, i ≤ m → outcomes i = AttemptOutcome.transportError) →
      extract_charging_stations outcomes m = (none, m + 1)) := by
  refine ⟨extractGo_attempts_le outcomes m (m + 1) 0 (by omega), ?_, ?_⟩
  · intro k hk hpre hstop
    have hgo := extractGo_stops_at_first_non_transport outcomes m k hk hpre hstop
      (m + 1) 0 (by omega) (by omega)
    unfold extract_charging_stations
    rw [hgo]
    refine ⟨rfl, fun hp => ?_⟩
    rw [hp]
  · intro hall
    exact extractGo_all_transport outcomes m hall (m + 1) 0 (by omega) (by omega)

/-- Attempt oracle for the C7 witness: one transport failure, then a
response whose body fails to parse as JSON. -/
def outcomesC7 : ℕ → AttemptOutcome :=
  fun i => if i = 0 then AttemptOutcome.transportError else AttemptOutcome.parseError

/-- Witness for C7 at `outcomesC7` with `max_retries = 3`: attempt 1 (the
second) raises the parse error, so the extractor stops after 2 of the 4
permitted attempts, with no data. -/
theorem extract_retry_behavior_witness :
    (1 ≤ 3 ∧ (∀ i, i < 1 → outcomesC7 i = AttemptOutcome.transportError) ∧
      outcomesC7 1 ≠ AttemptOutcome.transportError) ∧
    (extract_charging_stations outcomesC7 3).2 = 1 + 1 ∧
    (extract_charging_stations outcomesC7 3).1 = none :=
  ⟨⟨by decide, by decide, by decide⟩,
   ((extract_retry_behavior outcomesC7 3).2.1 1 (by decide) (by decide)
      (by decide)).1,
   ((extract_retry_behavior outcomesC7 3).2.1 1 (by decide) (by decide)
      (by decide)).2 (by decide)⟩

/-! ## Claim C10 — extractor grouping precedence vs transformer resolution -/

/-- C10: after the extractor's per-station normalization, a present
`connectionTypes` grouping (including one renamed from
`connectionsTypes`) is flattened — each connector stamped with its
grouping key as `type` — and unconditionally assigned to the station's
`connectors` field, replacing any upstream-provided list; the
transformer's resolution order is the opposite: a truthy existing
`connectors` list is preferred even when a grouping field is present. -/
theorem extractor_grouping_precedence (s : Station) :
    (∀ g : Grouping, (renameGrouping s).connectionTypes = some g →
      (processStation s).connectors = some (flattenGrouping g)) ∧
    (∀ (c : Connector) (cs : List Connector), s.connectors = some (c :: cs) →
      connectorsListOf s = c :: cs) := by
  constructor
  · intro g hg
    show (match (renameGrouping s).connectionTypes with
      | some g => { renameGrouping s with connectors := some (flattenGrouping g) }
      | none => renameGrouping s).connectors = some (flattenGrouping g)
    rw [hg]
  · intro c cs h
    unfold connectorsListOf
    rw [h]

/-- Upstream-provided connector list entry for the C10 witness. -/
def connC10a : Connector :=
  { Connector.empty with id := some (Val.str "A") }

/-- Grouped connector entry for the C10 witness. -/
def connC10b : Connector :=
  { Connector.empty with id := some (Val.str "B") }

/-- Station carrying both an upstream `connectors` list and a
`connectionsTypes` grouping. -/
def stationC10 : Station :=
  { Station.empty with
      connectors := some [connC10a]
      connectionsTypes := some [("CCS", [connC10b])] }

/-- Witness for C10 at `stationC10`: the extractor replaces the upstream
list with the flattened (renamed) grouping, while the transformer's
resolution keeps the upstream list. -/
theorem extractor_grouping_precedence_witness :
    (processStation stationC10).connectors =
      some (flattenGrouping [("CCS", [connC10b])]) ∧
    connectorsListOf stationC10 = [connC10a] :=
  ⟨(extractor_grouping_precedence stationC10).1 [("CCS", [connC10b])] (by decide),
   (extractor_grouping_precedence stationC10).2 connC10a [] (by decide)⟩

/-! ## Claim C8 — validator pass/fail policy -/

theorem stationsDupIssues_not_missing (d : DF) :
    ∀ i ∈ stationsDupIssues d, i.isMissingRequiredCols = false := by
  intro i hi
  cases i <;> try rfl
  unfold stationsDupIssues at hi
  (try split_ifs at hi) <;> simp_all

theorem stationsComplIssues_not_missing (d : DF) :
    ∀ i ∈ stationsComplIssues d, i.isMissingRequiredCols = false := by
  intro i hi
  cases i <;> try rfl
  unfold stationsComplIssues at hi
  simp_all

theorem stationsCoordIssues_not_missing (d : DF) :
    ∀ i ∈ stationsCoordIssues d, i.isMissingRequiredCols = false := by
  intro i hi
  cases i <;> try rfl
  unfold stationsCoordIssues at hi
  (try split_ifs at hi) <;> simp_all

theorem stationsStatusIssues_not_missing (d : DF) :
    ∀ i ∈ stationsStatusIssues d, i.isMissingRequiredCols = false := by
  intro i hi
  cases i <;> try rfl
  unfold stationsStatusIssues at hi
  (try split_ifs at hi) <;> simp_all

theorem stationsMismatchIssues_not_missing (d : DF) :
    ∀ i ∈ stationsMismatchIssues d, i.isMissingRequiredCols = false := by
  intro i hi
  cases i <;> try rfl
  unfold stationsMismatchIssues at hi
  simp_all

theorem utilDupIssues_not_missing (d : DF) :
    ∀ i ∈ utilDupIssues d, i.isMissingRequiredCols = false := by
  intro i hi
  cases i <;> try rfl
  unfold utilDupIssues at hi
  (try split_ifs at hi) <;> simp_all

theorem utilStatusIssues_not_missing (d : DF) :
    ∀ i ∈ utilStatusIssues d, i.isMissingRequiredCols = false := by
  intro i hi
  cases i <;> try rfl
  unfold utilStatusIssues at hi
  (try split_ifs at hi) <;> simp_all

theorem utilFlagIssues_not_missing (d : DF) :
    ∀ i ∈ utilFlagIssues d, i.isMissingRequiredCols = false := by
  intro i hi
  cases i <;> try rfl
  unfold utilFlagIssues at hi
  (try split_ifs at hi) <;> simp_all

theorem utilCoverageIssues_not_missing (env : ValidatorEnv) (d : DF)
    (b : Bool) :
    ∀ i ∈ utilCoverageIssues env d b, i.isMissingRequiredCols = false := by
  intro i hi
  cases i <;> try rfl
  unfold utilCoverageIssues at hi
  (try split_ifs at hi) <;> simp_all

theorem hourlyDupIssues_not_missing (d : DF) :
    ∀ i ∈ hourlyDupIssues d, i.isMissingRequiredCols = false := by
  intro i hi
  cases i <;> try rfl
  unfold hourlyDupIssues at hi
  (try split_ifs at hi) <;> simp_all

theorem hourlyRateIssues_not_missing (d : DF) :
    ∀ i ∈ hourlyRateIssues d, i.isMissingRequiredCols = false := by
  intro i hi
  cases i <;> try rfl
  unfold hourlyRateIssues at hi
  (try split_ifs at hi) <;> simp_all

theorem hourlySumIssues_not_missing (d : DF) :
    ∀ i ∈ hourlySumIssues d, i.isMissingRequiredCols = false := by
  intro i hi
  cases i <;> try rfl
  unfold hourlySumIssues at hi
  (try split_ifs at hi) <;> simp_all

theorem overallValid_of_not_missing (issues : List Issue)
    (h : ∀ i ∈ issues, i.isMissingRequiredCols = false) :
    overallValid issues = true := by
  unfold overallValid
  have : issues.all (fun i => !(i.isMissingRequiredCols)) = true :=
    List.all_eq_true.mpr (fun i hi => by simp [h i hi])
  rw [this, Bool.or_true]

/-- `coerceStep` is the identity when the column is absent or already
datetime-typed. -/
theorem coerceStep_skip (env : ValidatorEnv) (d : DF) (c : String)
    (h : d.cols.contains c = true → d.dtCols.contains c = true) :
    coerceStep env d c = (d, [], false) := by
  unfold coerceStep
  by_cases hc : d.cols.contains c = true
  · rw [if_pos hc, if_pos (h hc)]
  · rw [if_neg hc]

/-- The stations validator passes on a nonempty frame holding every
required column, whatever else the data looks like. -/
theorem validate_stations_data_valid (d : DF) (hne : ¬ d.rows.isEmpty = true)
    (hcols : ∀ c ∈ requiredStationCols, d.cols.contains c = true) :
    (validate_stations_data (some d)).1 = true := by
  have hmissing : requiredStationCols.filter (fun c => !(d.cols.contains c)) = [] := by
    rw [List.filter_eq_nil_iff]
    intro c hc
    rw [hcols c hc]
    decide
  simp only [validate_stations_data]
  rw [if_neg hne]
  simp only [hmissing, List.isEmpty_nil, if_true]
  rw [if_neg (by simp)]
  apply overallValid_of_not_missing
  intro i hi
  rcases List.mem_append.mp hi with hi | hi
  · rcases List.mem_append.mp hi with hi | hi
    · rcases List.mem_append.mp hi with hi | hi
      · rcases List.mem_append.mp hi with hi | hi
        · rcases List.mem_append.mp hi with hi | hi
          · exact absurd hi (List.not_mem_nil i)
          · exact stationsDupIssues_not_missing d i hi
        · exact stationsComplIssues_not_missing d i hi
      · exact stationsCoordIssues_not_missing d i hi
    · exact stationsStatusIssues_not_missing d i hi
  · exact stationsMismatchIssues_not_missing d i hi

/-- The utilization validator passes — and leaves the frame untouched — on a
nonempty frame holding every required column whose timestamp columns are
already datetime-typed. -/
theorem validate_utilization_data_valid (env : ValidatorEnv) (d : DF)
    (hne : ¬ d.rows.isEmpty = true)
    (hcols : ∀ c ∈ requiredUtilCols, d.cols.contains c = true)
    (hts : d.dtCols.contains "timestamp" = true)
    (hht : d.cols.contains "hourly_timestamp" = true →
      d.dtCols.contains "hourly_timestamp" = true) :
    (validate_utilization_data env (some d) false).1 = true ∧
    (validate_utilization_data env (some d) false).2.2 = some d := by
  have hmissing : requiredUtilCols.filter (fun c => !(d.cols.contains c)) = [] := by
    rw [List.filter_eq_nil_iff]
    intro c hc
    rw [hcols c hc]
    decide
  have hco1 : coerceStep env d "timestamp" = (d, [], false) :=
    coerceStep_skip env d "timestamp" (fun _ => hts)
  have hco2 : coerceStep env d "hourly_timestamp" = (d, [], false) :=
    coerceStep_skip env d "hourly_timestamp" hht
  simp only [validate_utilization_data]
  rw [if_neg hne]
  simp only [hmissing, List.isEmpty_nil, if_true]
  rw [if_neg (by simp)]
  rw [hco1, hco2]
  simp only [Bool.false_eq_true, if_false]
  constructor
  · apply overallValid_of_not_missing
    intro i hi
    rcases List.mem_append.mp hi with hi | hi
    · rcases List.mem_append.mp hi with hi | hi
      · rcases List.mem_append.mp hi with hi | hi
        · rcases List.mem_append.mp hi with hi | hi
          · rcases List.mem_append.mp hi with hi | hi
            · exact absurd hi (List.not_mem_nil i)
            · exact absurd hi (List.not_mem_nil i)
          · exact utilDupIssues_not_missing d i hi
        · exact utilStatusIssues_not_missing d i hi
      · exact utilFlagIssues_not_missing d i hi
    · exact utilCoverageIssues_not_missing env d false i hi
  · trivial

/-- The hourly validator passes — and leaves the frame untouched — on a
nonempty frame holding every required column whose `hourly_timestamp`
column is already datetime-typed. -/
theorem validate_hourly_data_valid (env : ValidatorEnv) (d : DF)
    (hne : ¬ d.rows.isEmpty = true)
    (hcols : ∀ c ∈ requiredHourlyCols, d.cols.contains c = true)
    (hht : d.dtCols.contains "hourly_timestamp" = true) :
    (validate_hourly_data env d).1 = true ∧
    (validate_hourly_data env d).2.2 = d := by
  have hmissing : requiredHourlyCols.filter (fun c => !(d.cols.contains c)) = [] := by
    rw [List.filter_eq_nil_iff]
    intro c hc
    rw [hcols c hc]
    decide
  have hco : coerceStep env d "hourly_timestamp" = (d, [], false) :=
    coerceStep_skip env d "hourly_timestamp" (fun _ => hht)
  simp only [validate_hourly_data]
  rw [if_neg hne]
  simp only [hmissing, List.isEmpty_nil, if_true]
  rw [hco]
  simp only [Bool.false_eq_true, if_false]
  constructor
  · apply overallValid_of_not_missing
    intro i hi
    rcases List.mem_append.mp hi with hi | hi
    · rcases List.mem_append.mp hi with hi | hi
      · rcases List.mem_append.mp hi with hi | hi
        · rcases List.mem_append.mp hi with hi | hi
          · exact absurd hi (List.not_mem_nil i)
          · exact absurd hi (List.not_mem_nil i)
        · exact hourlyDupIssues_not_missing d i hi
      · exact hourlyRateIssues_not_missing d i hi
    · exact hourlySumIssues_not_missing d i hi
  · trivial

theorem crossStationCoverage_empty (s u : DF)
    (h : missingStationIds s u = []) :
    crossStationCoverage (some s) (some u) = [] := by
  simp [crossStationCoverage, h]

theorem crossHourlyChecks_skip (env : ValidatorEnv) (u h : DF)
    (hcu : u.cols.contains "hourly_timestamp" = false) :
    crossHourlyChecks env (some u) (some h) = [] := by
  have hc : (u.cols.contains "hourly_timestamp" &&
      h.cols.contains "hourly_timestamp") = false := by
    rw [hcu]
    rfl
  simp only [crossHourlyChecks, hc, Bool.false_eq_true, if_false]

theorem crossHourlyChecks_empty (env : ValidatorEnv) (u h : DF)
    (hcu : u.cols.contains "hourly_timestamp" = true)
    (hch : h.cols.contains "hourly_timestamp" = true)
    (hudt : u.dtCols.contains "hourly_timestamp" = true)
    (hhdt : h.dtCols.contains "hourly_timestamp" = true)
    (hsu : u.cols.contains "station_id" = true)
    (hsh : h.cols.contains "station_id" = true)
    (hextra : extraHourlyTimestamps env u h = [])
    (hcount : nuniqueNonNull u "station_id" = nuniqueNonNull h "station_id") :
    crossHourlyChecks env (some u) (some h) = [] := by
  have h1 : (u.cols.contains "hourly_timestamp" &&
      h.cols.contains "hourly_timestamp") = true := by rw [hcu, hch]; rfl
  have h2 : (u.cols.contains "station_id" &&
      h.cols.contains "station_id") = true := by rw [hsu, hsh]; rfl
  simp only [crossHourlyChecks, h1, if_true, hudt, hhdt, eq_self_iff_true,
    h2, hextra, hcount, List.isEmpty_nil, ne_eq, not_true_eq_false,
    Bool.true_eq_false, if_false, List.append_nil, List.nil_append]

/-- C8 counterexample frames: a stations table missing only the
non-critical required column `name`, and a fully healthy utilization
table. -/
def sdfC8 : DF :=
  { cols := ["id", "status", "latitude", "longitude", "total_connectors"]
    dtCols := []
    rows := [[("id", Val.str "S1"), ("status", Val.str "Available"),
              ("latitude", Val.num 1), ("longitude", Val.num 1),
              ("total_connectors", Val.num 0)]] }

/-- Healthy utilization frame for the C8 counterexample and witness. -/
def udfC8 : DF :=
  { cols := ["timestamp", "station_id", "connector_id", "status",
             "is_occupied", "is_available", "is_out_of_order"]
    dtCols := ["timestamp"]
    rows := [[("timestamp", Val.dt 0), ("station_id", Val.str "S1"),
              ("connector_id", Val.str "C1"), ("status", Val.str "Available"),
              ("is_occupied", Val.num 0), ("is_available", Val.num 1),
              ("is_out_of_order", Val.num 0)]] }

/-- Concrete environment for closed validator evaluations: cells are
already datetime-typed, so the abstracted pandas primitives are never
consulted in earnest. -/
def env0 : ValidatorEnv :=
  { toDT := fun v => some v, fmt := fun _ => "x", hourOf := fun _ => 0 }

/-- C8 counterexample: with every critical column present in both frames
(station `id`/`status`; utilization `timestamp`/`station_id`/
`connector_id`/`status`), `validate_etl_pipeline` still returns
`passed = False`, because the stations frame lacks the non-critical
required column `name` and the final `is_valid` test at
data_validation.py line 106 fails on any `Missing required columns`
issue, critical or not. -/
theorem validator_pass_counterexample :
    (validate_etl_pipeline env0 (some sdfC8) (some udfC8) none).1 = false ∧
    criticalStationCols.all (fun c => sdfC8.cols.contains c) = true ∧
    criticalUtilCols.all (fun c => udfC8.cols.contains c) = true := by
  refine ⟨by decide, by decide, by decide⟩

/-- Nonempty-and-well-columned condition for the optional hourly frame. -/
def hourlyFrameOk (hdf : Option DF) : Prop :=
  match hdf with
  | none => True
  | some h =>
    (¬ h.rows.isEmpty = true) ∧
    (∀ c ∈ requiredHourlyCols, h.cols.contains c = true) ∧
    h.dtCols.contains "hourly_timestamp" = true

/-- No-findings condition for the hourly-vs-utilization cross checks. -/
def crossHourlyOk (env : ValidatorEnv) (u : DF) (hdf : Option DF) : Prop :=
  match hdf with
  | none => True
  | some h =>
    u.cols.contains "hourly_timestamp" = true →
      extraHourlyTimestamps env u h = [] ∧
      nuniqueNonNull u "station_id" = nuniqueNonNull h "station_id"

/-- C8 amended: `passed` is `True` whenever each supplied frame is nonempty
and holds all its required columns (not merely the critical ones), the
timestamp columns are datetime-typed (so no coercion can fail), and the
cross-dataset checks find nothing — every remaining rule (duplicates,
coordinate ranges, status vocabulary, flag consistency, connector-sum
mismatches, rate bounds) is advisory.  Conversely `passed` can be `False`
without any critical column being absent: any missing required column,
an empty frame, a failed timestamp coercion, or any cross-dataset
finding also forces it. -/
theorem validator_pass_policy (env : ValidatorEnv) (sdf udf : DF)
    (hdf : Option DF)
    (hsne : ¬ sdf.rows.isEmpty = true)
    (hscols : ∀ c ∈ requiredStationCols, sdf.cols.contains c = true)
    (hune : ¬ udf.rows.isEmpty = true)
    (hucols : ∀ c ∈ requiredUtilCols, udf.cols.contains c = true)
    (huts : udf.dtCols.contains "timestamp" = true)
    (huht : udf.cols.contains "hourly_timestamp" = true →
      udf.dtCols.contains "hourly_timestamp" = true)
    (hhok : hourlyFrameOk hdf)
    (hx1 : missingStationIds sdf udf = [])
    (hx2 : crossHourlyOk env udf hdf) :
    (validate_etl_pipeline env (some sdf) (some udf) hdf).1 = true := by
  obtain ⟨huv, hud⟩ :=
    validate_utilization_data_valid env udf hune hucols huts huht
  have hsv := validate_stations_data_valid sdf hsne hscols
  simp only [validate_etl_pipeline]
  rw [hsv, huv, hud]
  rw [crossStationCoverage_empty sdf udf hx1]
  cases hdf with
  | none => simp [crossHourlyChecks]
  | some h =>
    obtain ⟨hh1, hh2, hh3⟩ := hhok
    obtain ⟨hhv, hhd⟩ := validate_hourly_data_valid env h hh1 hh2 hh3
    simp only [hhv, hhd]
    by_cases hcu : udf.cols.contains "hourly_timestamp" = true
    · obtain ⟨hex, hcnt⟩ := hx2 hcu
      rw [crossHourlyChecks_empty env udf h hcu
        (hh2 "hourly_timestamp" (by decide)) (huht hcu) hh3
        (hucols "station_id" (by decide)) (hh2 "station_id" (by decide))
        hex hcnt]
      simp
    · rw [crossHourlyChecks_skip env udf h (Bool.eq_false_iff.mpr hcu)]
      simp

/-- Healthy stations frame for the C8 witness. -/
def sdfOK : DF :=
  { cols := ["id", "name", "status", "latitude", "longitude",
             "total_connectors"]
    dtCols := []
    rows := [[("id", Val.str "S1"), ("name", Val.str "N"),
              ("status", Val.str "Weird"), ("latitude", Val.num 1),
              ("longitude", Val.num 1), ("total_connectors", Val.num 0)]] }

/-- Healthy utilization frame (with an `hourly_timestamp` column) for the
C8 witness. -/
def udfOK : DF :=
  { cols := ["timestamp", "hourly_timestamp", "station_id", "connector_id",
             "status", "is_occupied", "is_available", "is_out_of_order"]
    dtCols := ["timestamp", "hourly_timestamp"]
    rows := [[("timestamp", Val.dt 0), ("hourly_timestamp", Val.dt 0),
              ("station_id", Val.str "S1"), ("connector_id", Val.str "C1"),
              ("status", Val.str "Available"), ("is_occupied", Val.num 0),
              ("is_available", Val.num 1), ("is_out_of_order", Val.num 0)]] }

/-- Healthy hourly frame for the C8 witness. -/
def hdfOK : DF :=
  { cols := ["hourly_timestamp", "station_id", "is_available", "is_occupied",
             "is_out_of_order", "total_connectors", "occupancy_rate"]
    dtCols := ["hourly_timestamp"]
    rows := [[("hourly_timestamp", Val.dt 0), ("station_id", Val.str "S1"),
              ("is_available", Val.num 1), ("is_occupied", Val.num 0),
              ("is_out_of_order", Val.num 0), ("total_connectors", Val.num 1),
              ("occupancy_rate", Val.num 0)]] }

/-- Witness for the amended C8: three healthy frames — the stations frame
even carries the unexpected status value `Weird`, which only produces an
advisory issue — make `passed = True`. -/
theorem validator_pass_policy_witness :
    (¬ sdfOK.rows.isEmpty = true) ∧ hourlyFrameOk (some hdfOK) ∧
    missingStationIds sdfOK udfOK = [] ∧
    (validate_etl_pipeline env0 (some sdfOK) (some udfOK) (some hdfOK)).1 = true :=
  ⟨by decide,
   by unfold hourlyFrameOk; exact ⟨by decide, by decide, by decide⟩,
   by decide,
   validator_pass_policy env0 sdfOK udfOK (some hdfOK)
     (by decide) (by decide) (by decide) (by decide) (by decide)
     (fun _ => by decide)
     (by unfold hourlyFrameOk; exact ⟨by decide, by decide, by decide⟩)
     (by decide)
     (by unfold crossHourlyOk; exact fun _ => ⟨by decide, by decide⟩)⟩

end SurplusMap
